import Mathlib

/-!
Verification of the milk-txmgr reliable transaction delivery engine
(dcSpark/optimism, op-service/milk-txmgr and related files).

The Go source is shallowly embedded: maps with unit values become finite
sets of keys, `error` values become `Option`/`Except`, clocks become
natural-number timestamps, and the concurrent event loop of
`SimpleTxManager.sendTx` becomes a pure function over an explicit list of
observed events (timer ticks, context cancellation, receipt arrivals).
-/

namespace Txmgr

/-! ## Progress tracker: SendState (send_state.go)

Embeds the `SendState` struct that carries the not-in-mempool deadline and
the successful-publish counter: `minedTxs map[string]struct{}` becomes a
`Finset String`; `txInMempoolDeadline time.Time` and the clock become `Nat`
timestamps; `successFullPublishCount uint64` becomes a `Nat` (the counter
is only ever incremented, so overflow behaviour is not observable in any
claim considered here). -/

structure SendState where
  minedTxs : Finset String
  txInMempoolDeadline : Nat
  successFullPublishCount : Nat
  deriving DecidableEq

/-- NewSendStateWithNow creates a new send state with the provided clock:
`txInMempoolDeadline: now().Add(unableToSendTimeout)`.  The Go `now`
function is modelled by passing the clock reading `now0` at construction
time. -/
def NewSendStateWithNow (unableToSendTimeout : Nat) (now0 : Nat) : SendState :=
  { minedTxs := ∅
    txInMempoolDeadline := now0 + unableToSendTimeout
    successFullPublishCount := 0 }

/-- ProcessSendError: `switch { case err == nil: s.successFullPublishCount++ }`;
any non-nil error matches no case and changes nothing.  A Go `error` is
modelled by `Option String` (`none` = nil). -/
def SendState.ProcessSendError (s : SendState) (err : Option String) : SendState :=
  match err with
  | none => { s with successFullPublishCount := s.successFullPublishCount + 1 }
  | some _ => s

/-- TxMined: `s.minedTxs[txid] = struct{}{}` — set insert. -/
def SendState.TxMined (s : SendState) (txid : String) : SendState :=
  { s with minedTxs := insert txid s.minedTxs }

/-- TxNotMined: `delete(s.minedTxs, txid)` — set remove. -/
def SendState.TxNotMined (s : SendState) (txid : String) : SendState :=
  { s with minedTxs := s.minedTxs.erase txid }

/-- IsWaitingForConfirmation: `len(s.minedTxs) > 0`. -/
def SendState.IsWaitingForConfirmation (s : SendState) : Bool :=
  0 < s.minedTxs.card

/-- ShouldAbortImmediately as written in the source: it returns false when
at least one mined txn is recorded, and — the deadline check being left as
a TODO — it also returns false otherwise.  The deadline and publish-count
fields are never consulted. -/
def SendState.ShouldAbortImmediately (s : SendState) : Bool :=
  if 0 < s.minedTxs.card then false
  else false

/-- Modelled from the spec: the abort condition the spec (and the unit test
TestSendStateTimeoutAbort) ascribe to ShouldAbortImmediately — true iff
minedTxs is empty, the configured not-in-mempool deadline has elapsed at
the clock reading `now`, and zero successful publishes were recorded. -/
def specShouldAbortImmediately (s : SendState) (now : Nat) : Bool :=
  s.minedTxs.card = 0 && s.txInMempoolDeadline < now && s.successFullPublishCount = 0

/-- State built exactly as in TestSendStateTimeoutAbort:
`newSendStateWithTimeout(10*time.Millisecond, stepClock(20*time.Millisecond))`,
in milliseconds: the constructor's `now()` call reads 20, so the deadline
is 30; the clock reads 40 by the time ShouldAbortImmediately is called. -/
def timeoutAbortTestState : SendState :=
  NewSendStateWithNow 10 20

/-! ## Delivery engine data (txmgr.go)

Minimal faithful images of the Go data the engine moves around:
`models.PendingTransactionInfoResponse` keeps the two fields the engine
reads (`ConfirmedRound`, `PoolError`); `opcrypto.SignedTxn` keeps txid,
transaction and raw bytes; `types.SuggestedParams` keeps the fields the
mock backend populates. -/

structure PendingInfo where
  confirmedRound : Nat
  poolError : String
  deriving DecidableEq

structure SuggestedParams where
  fee : Nat
  genesisID : String
  firstRoundValid : Nat
  lastRoundValid : Nat
  deriving DecidableEq

structure Transaction where
  sender : String
  receiver : String
  note : List Nat
  deriving DecidableEq

structure SignedTxn where
  txid : String
  txn : Transaction
  rawTxn : List Nat
  deriving DecidableEq

/-- Error values the engine can return, kept distinct so that "exactly the
context's own error value" is expressible: context errors (Canceled /
DeadlineExceeded), the abort error `errors.New("aborted transaction
sending")`, and craft errors wrapped by `fmt.Errorf("failed to create the
tx: %w", err)`. -/
inductive CtxErr where
  | canceled
  | deadlineExceeded
  deriving DecidableEq

inductive ErrVal where
  | fromCtx (e : CtxErr)
  | abortedTransactionSending
  | failedToCreateTx (inner : String)
  deriving DecidableEq

/-! ## craftTx and send (txmgr_test.go lines 403-437)

craftTx performs three fallible steps in sequence — the SuggestedParams
fetch (issued under `context.Background()`, see the context model below),
`future.MakePaymentTxn`, and the signer — returning at the first failure
with the source's wrapping message.  The backend / SDK / signer responses
are passed in as oracles. -/

def craftTx (suggestedParamsResult : Except String SuggestedParams)
    (makePaymentTxn : SuggestedParams → Except String Transaction)
    (signer : Transaction → Except String SignedTxn) : Except String SignedTxn :=
  match suggestedParamsResult with
  | .error e => .error ("failed to get suggested params: " ++ e)
  | .ok sp =>
    match makePaymentTxn sp with
    | .error e => .error ("failed to create payment transaction: " ++ e)
    | .ok tx => signer tx

/-- send (txmgr_test.go:404-415): craft once; on error wrap it and return
immediately; otherwise hand the signed transaction to the dispatch loop
(`sendTx`).  The second component of a dispatch result counts how many
transactions were submitted to the backend during the call; a craft
failure submits none. -/
def send (craftResult : Except String SignedTxn)
    (dispatch : SignedTxn → (Option PendingInfo × Option ErrVal) × Nat) :
    (Option PendingInfo × Option ErrVal) × Nat :=
  match craftResult with
  | .error e => ((none, some (ErrVal.failedToCreateTx e)), 0)
  | .ok tx => dispatch tx

/-! ## Dispatch loop of sendTx (txmgr_test.go lines 441-488)

The loop's `select` waits on three sources: the resubmission ticker, the
call context's Done channel, and the capacity-one receipt channel.  An
execution of the loop is modelled by the list of events it observes, in
order; each ticker event carries the snapshot of the (concurrently
mutated) SendState that the tick reads. -/

inductive LoopEvent where
  | tick (s : SendState)
  | ctxDone (e : CtxErr)
  | receiptArrival (r : PendingInfo)

/-- Outcome of one ticker tick (txmgr_test.go:464-477): skip when an
attempt is already seen mined, abort the call when ShouldAbortImmediately,
otherwise spawn exactly one more publish-and-wait task carrying the same,
unmodified signed transaction. -/
inductive TickAction where
  | skip
  | abortCall
  | spawnTask (tx : SignedTxn)
  deriving DecidableEq

def tickStep (s : SendState) (tx : SignedTxn) : TickAction :=
  if s.IsWaitingForConfirmation then TickAction.skip
  else if s.ShouldAbortImmediately then TickAction.abortCall
  else TickAction.spawnTask tx

/-- The event loop itself: `none` means the loop is still blocked in its
select; a `some` result is the pair sendTx returns.  The tick branch
defers to tickStep; the `ctx.Done()` branch returns `(nil, ctx.Err())`;
the receipt branch returns `(receipt, nil)`. -/
def sendTxLoop (tx : SignedTxn) : List LoopEvent → Option (Option PendingInfo × Option ErrVal)
  | [] => none
  | LoopEvent.tick s :: rest =>
    match tickStep s tx with
    | TickAction.skip => sendTxLoop tx rest
    | TickAction.abortCall => some (none, some ErrVal.abortedTransactionSending)
    | TickAction.spawnTask _ => sendTxLoop tx rest
  | LoopEvent.ctxDone e :: _ => some (none, some (ErrVal.fromCtx e))
  | LoopEvent.receiptArrival r :: _ => some (some r, none)

/-! ## The capacity-one receipt channel (txmgr_test.go:448, 526-530)

`receiptChan` has capacity one and every producer offers its receipt with
`select { case receiptChan <- receipt: ... default: }` — a non-blocking
offer into a single slot.  Before the single consumer's receive, the slot
holds the first offered receipt and every later offer is a no-op. -/

def offerReceipt (slot : Option PendingInfo) (r : PendingInfo) : Option PendingInfo :=
  match slot with
  | none => some r
  | some first => some first

def offerAll (offers : List PendingInfo) : Option PendingInfo :=
  offers.foldl offerReceipt none

/-! ## queryReceipt (txmgr_test.go lines 549-572)

The backend's `PendingTransactionInformation` response is either an RPC
error, or an optional info record.  queryReceipt returns the receipt only
when the response reports a positive confirmed round and an empty pool
error; every other case yields no receipt, and every non-error case that
yields no receipt records the id as not mined. -/

def queryReceipt (response : Except String (Option PendingInfo)) (txid : String)
    (s : SendState) : Option PendingInfo × SendState :=
  match response with
  | .error _ => (none, s)
  | .ok info =>
    match info with
    | none => (none, s.TxNotMined txid)
    | some i =>
      if i.confirmedRound ≤ 0 then (none, s.TxNotMined txid)
      else if i.poolError ≠ "" then (none, s.TxNotMined txid)
      else (some i, s.TxMined txid)

/-! ## Context derivation (txmgr_test.go:421, 497, 551)

A Go context is modelled by its derivation tree: `context.Background()`,
the caller's context (standing for the cancellable context `sendTx`
derives from the caller's, which is done exactly when the caller's is),
or `context.WithTimeout(parent, d)`.  `isDone` evaluates whether a
context has been cancelled, given whether the caller's context is done
and how much time has elapsed since the network call started. -/

inductive Ctx where
  | background
  | caller
  | withTimeout (parent : Ctx) (d : Nat)

def Ctx.isDone : Ctx → Bool → Nat → Bool
  | Ctx.background, _, _ => false
  | Ctx.caller, callerDone, _ => callerDone
  | Ctx.withTimeout p d, callerDone, elapsed =>
      p.isDone callerDone elapsed || decide (d ≤ elapsed)

/-- Context of the SuggestedParams fetch in craftTx:
`m.backend.SuggestedParams(context.Background())`. -/
def suggestedParamsCtx : Ctx := Ctx.background

/-- Context of SendTransaction in publishAndWaitForTx:
`cCtx, cancel := context.WithTimeout(ctx, m.cfg.NetworkTimeout)`. -/
def sendTransactionCtx (networkTimeout : Nat) : Ctx :=
  Ctx.withTimeout Ctx.caller networkTimeout

/-- Context of PendingTransactionInformation in queryReceipt:
`ctx, cancel := context.WithTimeout(ctx, m.cfg.NetworkTimeout)`. -/
def pendingTxInfoCtx (networkTimeout : Nat) : Ctx :=
  Ctx.withTimeout Ctx.caller networkTimeout

/-! ## Task-group quiescence of sendTx (txmgr_test.go:442-445, 455-456, 475-477)

sendTx's goroutine discipline: `var wg sync.WaitGroup; defer wg.Wait()`
is the first deferred action (so it runs last, after the deferred
`cancel()`); every spawn site executes `wg.Add(1)` immediately before
`go sendTxAsync(tx)`; and `sendTxAsync` begins with `defer wg.Done()`,
so each task decrements the counter exactly once, at exit.  The resulting
protocol is a transition system: `spawn` (Add then go, only while sendTx
has not returned), `taskExit` (a running task finishes and runs its
deferred Done), and `ret` (sendTx passes its deferred `wg.Wait()`, which
by WaitGroup semantics unblocks only when the counter added - exited is
zero). -/

structure TaskGroupState where
  added : Nat
  exited : Nat
  returned : Bool
  deriving DecidableEq

inductive TaskGroupStep : TaskGroupState → TaskGroupState → Prop where
  | spawn (a e : Nat) :
      TaskGroupStep ⟨a, e, false⟩ ⟨a + 1, e, false⟩
  | taskExit (a e : Nat) (h : e < a) (r : Bool) :
      TaskGroupStep ⟨a, e, r⟩ ⟨a, e + 1, r⟩
  | ret (a : Nat) :
      TaskGroupStep ⟨a, a, false⟩ ⟨a, a, true⟩

/-- Initial state of one sendTx call: nothing spawned, not returned. -/
def sendTxInit : TaskGroupState := ⟨0, 0, false⟩

/-- States a sendTx call can actually be in. -/
def TaskGroupReachable (st : TaskGroupState) : Prop :=
  Relation.ReflTransGen TaskGroupStep sendTxInit st

end Txmgr

namespace Txmgr

/-- Helper: the source's ShouldAbortImmediately returns false on every
state (both branches of its guard return false). -/
theorem SendState.shouldAbortImmediately_eq_false (s : SendState) :
    s.ShouldAbortImmediately = false := by
  unfold SendState.ShouldAbortImmediately
  split <;> rfl

/-- Helper: a tick never aborts; it either skips or respawns the same tx. -/
theorem tickStep_skip_or_spawn (s : SendState) (tx : SignedTxn) :
    tickStep s tx = TickAction.skip ∨ tickStep s tx = TickAction.spawnTask tx := by
  unfold tickStep
  rcases hw : s.IsWaitingForConfirmation with _ | _
  · simp [hw, s.shouldAbortImmediately_eq_false]
  · simp [hw]

/-- Helper: while only ticker events are observed, the dispatch loop keeps
running — no tick can terminate the call. -/
theorem sendTxLoop_ticks_running (tx : SignedTxn) :
    ∀ pre : List LoopEvent, (∀ ev ∈ pre, ∃ st, ev = LoopEvent.tick st) →
      sendTxLoop tx pre = none := by
  intro pre
  induction pre with
  | nil => intro _; rfl
  | cons ev rest ih =>
    intro hpre
    obtain ⟨st, rfl⟩ := hpre ev (List.mem_cons_self ev rest)
    have hrest := ih fun ev h => hpre ev (List.mem_cons_of_mem _ h)
    rcases tickStep_skip_or_spawn st tx with h | h <;>
      simp [sendTxLoop, h, hrest]

/-- C1: the claim says ShouldAbortImmediately returns true when minedTxs is
empty, the not-in-pool deadline has elapsed and no successful publish was
recorded; the code returns false at exactly the input of its own unit test
TestSendStateTimeoutAbort (which requires true), because the deadline check
was dropped in the migration (left as a TODO). -/
theorem shouldAbortImmediately_timeout_code_bug :
    timeoutAbortTestState.ShouldAbortImmediately = false ∧
    specShouldAbortImmediately timeoutAbortTestState 40 = true := by
  constructor <;> rfl

/-- C8: ProcessSendError with a nil error increments successFullPublishCount
by exactly one and changes no other field; with any non-nil error it leaves
the whole state unchanged — no error kind is classified or acted on. -/
theorem processSendError_spec :
    (∀ s : SendState,
      (s.ProcessSendError none).successFullPublishCount = s.successFullPublishCount + 1 ∧
      (s.ProcessSendError none).minedTxs = s.minedTxs ∧
      (s.ProcessSendError none).txInMempoolDeadline = s.txInMempoolDeadline) ∧
    (∀ (s : SendState) (e : String), s.ProcessSendError (some e) = s) := by
  refine ⟨fun s => ⟨rfl, rfl, rfl⟩, fun s e => rfl⟩

/-- C9: if id is not already marked mined and no other id is in the mined
set, TxMined(id) followed by TxNotMined(id) leaves IsWaitingForConfirmation
false; moreover TxMined and TxNotMined are idempotent set insert and set
remove. -/
theorem txMined_txNotMined_roundtrip (s : SendState) (id : String)
    (hfresh : id ∉ s.minedTxs) (hrest : s.minedTxs.erase id = ∅) :
    ((s.TxMined id).TxNotMined id).IsWaitingForConfirmation = false ∧
    (s.TxMined id).TxMined id = s.TxMined id ∧
    (s.TxNotMined id).TxNotMined id = s.TxNotMined id := by
  refine ⟨?_, ?_, ?_⟩
  · have hempty : s.minedTxs = ∅ := by
      rwa [Finset.erase_eq_of_not_mem hfresh] at hrest
    simp [SendState.TxMined, SendState.TxNotMined, SendState.IsWaitingForConfirmation,
      Finset.erase_insert hfresh, hempty]
  · simp [SendState.TxMined, Finset.insert_idem]
  · simp [SendState.TxNotMined, Finset.erase_idem]

/-- Witness for C9 at the fresh state of the unit test
TestSendStateIsNotWaitingForConfirmationAfterTxUnmined (txid "aabb"). -/
theorem txMined_txNotMined_roundtrip_witness :
    (((NewSendStateWithNow 3600 0).TxMined "aabb").TxNotMined "aabb").IsWaitingForConfirmation
      = false :=
  (txMined_txNotMined_roundtrip (NewSendStateWithNow 3600 0) "aabb"
    (by decide) (by decide)).1

/-- C2: exactly one confirmation is delivered per sendTx call — the
capacity-one receipt slot keeps the first offered receipt under any
sequence of later non-blocking offers (which are observably dropped), and
the loop returns at its first receipt arrival, ignoring everything after. -/
theorem single_confirmation_delivered :
    (∀ (first : PendingInfo) (later : List PendingInfo),
      offerAll (first :: later) = some first) ∧
    (∀ first r : PendingInfo, offerReceipt (some first) r = some first) ∧
    (∀ (tx : SignedTxn) (r : PendingInfo) (rest : List LoopEvent),
      sendTxLoop tx (LoopEvent.receiptArrival r :: rest) = some (some r, none)) := by
  refine ⟨fun first later => ?_, fun first r => rfl, fun tx r rest => rfl⟩
  show List.foldl offerReceipt (some first) later = some first
  induction later with
  | nil => rfl
  | cons r rest ih => exact ih

/-- C3: on a resubmission tick the dispatch loop does exactly one of three
things — nothing when an attempt is already seen mined, failing the call
with the abort error when ShouldAbortImmediately, and otherwise spawning
exactly one more publish-and-wait task for the same, unmodified signed
transaction. -/
theorem tick_dispatch_cases (s : SendState) (tx : SignedTxn) :
    (tickStep s tx = TickAction.skip ∨ tickStep s tx = TickAction.abortCall ∨
      tickStep s tx = TickAction.spawnTask tx) ∧
    (tickStep s tx = TickAction.skip ↔ s.IsWaitingForConfirmation = true) ∧
    (tickStep s tx = TickAction.abortCall ↔
      (s.IsWaitingForConfirmation = false ∧ s.ShouldAbortImmediately = true)) ∧
    (tickStep s tx = TickAction.spawnTask tx ↔
      (s.IsWaitingForConfirmation = false ∧ s.ShouldAbortImmediately = false)) := by
  have habort := s.shouldAbortImmediately_eq_false
  unfold tickStep
  rcases hw : s.IsWaitingForConfirmation with _ | _ <;>
    simp [hw, habort]

/-- C4: if the context's Done fires before any receipt has been delivered
(every earlier loop event was a ticker tick), the call returns a nil
confirmation paired with exactly the context's own error value; and the
outer send layer passes a dispatch result through unchanged. -/
theorem ctx_done_returns_ctx_error (tx : SignedTxn) (pre : List LoopEvent)
    (hpre : ∀ ev ∈ pre, ∃ st, ev = LoopEvent.tick st)
    (e : CtxErr) (rest : List LoopEvent) :
    sendTxLoop tx (pre ++ LoopEvent.ctxDone e :: rest) =
      some (none, some (ErrVal.fromCtx e)) ∧
    (∀ dispatch : SignedTxn → (Option PendingInfo × Option ErrVal) × Nat,
      send (Except.ok tx) dispatch = dispatch tx) := by
  refine ⟨?_, fun dispatch => rfl⟩
  induction pre with
  | nil => rfl
  | cons ev prefixRest ih =>
    obtain ⟨st, rfl⟩ := hpre ev (List.mem_cons_self ev prefixRest)
    have hrest := ih fun ev h => hpre ev (List.mem_cons_of_mem _ h)
    rcases tickStep_skip_or_spawn st tx with h | h <;>
      simp [sendTxLoop, h, hrest]

/-- Witness for C4: a run of the loop observing one tick on a fresh state
and then context-deadline expiry returns (nil, DeadlineExceeded). -/
theorem ctx_done_returns_ctx_error_witness :
    sendTxLoop ⟨"TXID1", ⟨"SND", "RCV", [0]⟩, [1, 2]⟩
        [LoopEvent.tick (NewSendStateWithNow 3600 0),
         LoopEvent.ctxDone CtxErr.deadlineExceeded] =
      some (none, some (ErrVal.fromCtx CtxErr.deadlineExceeded)) :=
  (ctx_done_returns_ctx_error ⟨"TXID1", ⟨"SND", "RCV", [0]⟩, [1, 2]⟩
    [LoopEvent.tick (NewSendStateWithNow 3600 0)]
    (fun ev hev => ⟨NewSendStateWithNow 3600 0, by
      rw [List.mem_singleton] at hev; exact hev⟩)
    CtxErr.deadlineExceeded []).1

/-- C6: if the suggested-params fetch fails, or signing fails, the send
call returns the wrapped build error immediately, with zero transactions
submitted to the backend; the build step is evaluated exactly once (send
consumes the single craftTx result). -/
theorem build_failure_immediate (spErr : String) (sp : SuggestedParams)
    (makePaymentTxn : SuggestedParams → Except String Transaction)
    (signer : Transaction → Except String SignedTxn)
    (dispatch : SignedTxn → (Option PendingInfo × Option ErrVal) × Nat) :
    send (craftTx (Except.error spErr) makePaymentTxn signer) dispatch =
      ((none, some (ErrVal.failedToCreateTx
        ("failed to get suggested params: " ++ spErr))), 0) ∧
    (∀ (tx : Transaction) (e : String), makePaymentTxn sp = Except.ok tx →
      signer tx = Except.error e →
      send (craftTx (Except.ok sp) makePaymentTxn signer) dispatch =
        ((none, some (ErrVal.failedToCreateTx e)), 0)) := by
  refine ⟨rfl, fun tx e hmk hsg => ?_⟩
  simp [send, craftTx, hmk, hsg]

/-- Witness for C6 with a concrete failing signer: the build error is
surfaced at once and nothing is submitted. -/
theorem build_failure_immediate_witness :
    send (craftTx (Except.ok ⟨5000, "", 1, 1000⟩)
        (fun _ => Except.ok ⟨"SND", "RCV", [0]⟩)
        (fun _ => Except.error "sign fail"))
        (fun _ => ((some ⟨7, ""⟩, none), 5)) =
      ((none, some (ErrVal.failedToCreateTx "sign fail")), 0) :=
  (build_failure_immediate "unused" ⟨5000, "", 1, 1000⟩
    (fun _ => Except.ok ⟨"SND", "RCV", [0]⟩)
    (fun _ => Except.error "sign fail")
    (fun _ => ((some ⟨7, ""⟩, none), 5))).2
    ⟨"SND", "RCV", [0]⟩ "sign fail" rfl rfl

/-- C7: a backend-reported pool rejection yields no receipt and records
the id as not mined — it is never turned into a call failure — and the
dispatch loop keeps running as long as only ticker events are observed, so
another attempt may still succeed. -/
theorem pool_rejection_not_fatal (txid : String) (s : SendState)
    (i : PendingInfo) (hpool : i.poolError ≠ "") :
    queryReceipt (Except.ok (some i)) txid s = (none, s.TxNotMined txid) ∧
    (∀ (tx : SignedTxn) (pre : List LoopEvent),
      (∀ ev ∈ pre, ∃ st, ev = LoopEvent.tick st) → sendTxLoop tx pre = none) := by
  refine ⟨?_, fun tx pre h => sendTxLoop_ticks_running tx pre h⟩
  by_cases hc : i.confirmedRound ≤ 0 <;> simp [queryReceipt, hc, hpool]

/-- Witness for C7: a pool-rejected, unconfirmed response for txid "TXID1"
on a fresh state yields no receipt and an unchanged-empty mined set. -/
theorem pool_rejection_not_fatal_witness :
    queryReceipt (Except.ok (some ⟨0, "overspend"⟩)) "TXID1"
        (NewSendStateWithNow 3600 0) =
      (none, (NewSendStateWithNow 3600 0).TxNotMined "TXID1") :=
  (pool_rejection_not_fatal "TXID1" (NewSendStateWithNow 3600 0)
    ⟨0, "overspend"⟩ (by decide)).1

/-- C5: in every reachable state of a sendTx call in which the call has
returned, the number of exited tasks equals the number of spawned tasks —
no spawned goroutine is still running — and no further transition exists
from such a state. -/
theorem sendTx_quiescent_on_return (st : TaskGroupState)
    (hreach : TaskGroupReachable st) (hret : st.returned = true) :
    st.exited = st.added ∧ ∀ st', ¬ TaskGroupStep st st' := by
  have key : ∀ t : TaskGroupState, TaskGroupReachable t →
      t.exited ≤ t.added ∧ (t.returned = true → t.exited = t.added) := by
    intro t ht
    induction ht with
    | refl => exact ⟨Nat.le_refl 0, fun _ => rfl⟩
    | tail _ hstep ih =>
      cases hstep with
      | spawn a e =>
        exact ⟨Nat.le_succ_of_le ih.1, fun h => by simp at h⟩
      | taskExit a e h r =>
        exact ⟨h, fun hr => absurd (ih.2 hr) (Nat.ne_of_lt h)⟩
      | ret a =>
        exact ⟨Nat.le_refl a, fun _ => rfl⟩
  obtain ⟨hle, himp⟩ := key st hreach
  have heq := himp hret
  refine ⟨heq, fun st' hstep => ?_⟩
  cases hstep with
  | spawn a e => simp at hret
  | taskExit a e h r => exact absurd heq (Nat.ne_of_lt h)
  | ret a => simp at hret

/-- Witness for C5: the returned state after one spawned and exited task
is reachable, and there all spawned tasks have exited. -/
theorem sendTx_quiescent_on_return_witness :
    (⟨1, 1, true⟩ : TaskGroupState).exited = (⟨1, 1, true⟩ : TaskGroupState).added :=
  (sendTx_quiescent_on_return ⟨1, 1, true⟩
    (Relation.ReflTransGen.tail
      (Relation.ReflTransGen.tail
        (Relation.ReflTransGen.tail Relation.ReflTransGen.refl
          (TaskGroupStep.spawn 0 0))
        (TaskGroupStep.taskExit 1 0 Nat.zero_lt_one false))
      (TaskGroupStep.ret 1))
    rfl).1

/-- C10: the SuggestedParams fetch in craftTx runs under a background
context that is never done — neither caller cancellation nor any elapsed
time cancels it — whereas the SendTransaction and
PendingTransactionInformation contexts are done as soon as the caller's
context is done or the network timeout has elapsed. -/
theorem suggestedParams_ctx_never_cancelled (callerDone : Bool)
    (elapsed networkTimeout extra : Nat) :
    suggestedParamsCtx.isDone callerDone elapsed = false ∧
    (sendTransactionCtx networkTimeout).isDone true elapsed = true ∧
    (sendTransactionCtx networkTimeout).isDone callerDone (networkTimeout + extra) = true ∧
    (pendingTxInfoCtx networkTimeout).isDone true elapsed = true ∧
    (pendingTxInfoCtx networkTimeout).isDone callerDone (networkTimeout + extra) = true := by
  refine ⟨rfl, by simp [sendTransactionCtx, Ctx.isDone], ?_, by
    simp [pendingTxInfoCtx, Ctx.isDone], ?_⟩ <;>
  · simp [sendTransactionCtx, pendingTxInfoCtx, Ctx.isDone, Nat.le_add_right]

end Txmgr
